import Mathlib

/-!
# Serial-to-Socket.IO bridge (`server.js`)

A shallow embedding of `server.js`: the module-level variable `lastCaptcha`, the
handlers registered inside `startSerial` (`sp.open` callback, parser `'data'`,
`sp.on('error')`, `sp.on('close')`), the `io.on('connection')` handler and the
`GET /api/captcha` route.

* JavaScript strings are modelled as lists of characters (`JsString`).  Every
  character that `String.prototype.trim` removes and the separator `:` lie in the
  Basic Multilingual Plane, so trimming, `startsWith`, `split` and `join` act on
  code points exactly as they act on UTF-16 code units.
* Effects are recorded in the state: `emitted` is the trace of `io.emit` /
  `socket.emit` calls, `timers` the pending `setTimeout` registrations, `ports`
  the `SerialPort` objects on which `open` was called, `console` the log output.
* The environment (serial driver, Socket.IO, timer loop) chooses which handler
  runs next; a run is a list of `Ev`.
-/

namespace SerialBridge

/-! ## Strings -/

/-- A JavaScript string, as the list of its characters. -/
abbrev JsString := List Char

/-- The characters removed by `String.prototype.trim`: ECMAScript `WhiteSpace`
(TAB, VT, FF, ZWNBSP and the Unicode category Zs) and `LineTerminator`
(LF, CR, LS, PS). -/
def isWhiteSpace (c : Char) : Bool :=
  let n := c.toNat
  n == 0x09 || n == 0x0A || n == 0x0B || n == 0x0C || n == 0x0D || n == 0x20 ||
  n == 0xA0 || n == 0x1680 || (0x2000 ≤ n && n ≤ 0x200A) ||
  n == 0x2028 || n == 0x2029 || n == 0x202F || n == 0x205F || n == 0x3000 || n == 0xFEFF

/-- The method `String.prototype.trimStart`. -/
def trimStart (s : JsString) : JsString :=
  s.dropWhile isWhiteSpace

/-- The method `String.prototype.trimEnd`. -/
def trimEnd (s : JsString) : JsString :=
  (s.reverse.dropWhile isWhiteSpace).reverse

/-- The method `String.prototype.trim`. -/
def trim (s : JsString) : JsString :=
  trimEnd (trimStart s)

/-- The call `s.startsWith(p)`. -/
def startsWith (s p : JsString) : Bool :=
  p.isPrefixOf s

/-- The call `s.split(sep)` for a one-character separator: the pieces between the
occurrences of `sep`; a string without separator (also the empty string) gives
one piece. -/
def split (sep : Char) : JsString → List JsString
  | [] => [[]]
  | c :: cs =>
    if c = sep then [] :: split sep cs
    else
      match split sep cs with
      | [] => [[c]]
      | p :: ps => (c :: p) :: ps

/-- The call `parts.join(sep)` for a one-character separator. -/
def join (sep : Char) : List JsString → JsString
  | [] => []
  | [p] => p
  | p :: q :: ps => p ++ sep :: join sep (q :: ps)

/-- The expression `line || ''` for a string `line`: the empty string is falsy. -/
def orEmpty (line : JsString) : JsString :=
  if line.isEmpty then [] else line

/-- The literal `'CAPTCHA:'` tested by `text.startsWith`. -/
def captchaTag : JsString := "CAPTCHA:".toList

/-- The expression `text.split(':').slice(1).join(':').trim()` of the `'data'` handler. -/
def extractCaptcha (text : JsString) : JsString :=
  trim (join ':' ((split ':' text).drop 1))

/-! ## State and effects -/

/-- The values `SERIAL_PATH` and `BAUD_RATE`, read once from the process environment. -/
structure Config where
  SERIAL_PATH : JsString
  BAUD_RATE : Nat
  deriving DecidableEq, Repr

/-- The defaults of `server.js`: `'COM15'` and `9600`. -/
def defaultConfig : Config :=
  { SERIAL_PATH := "COM15".toList, BAUD_RATE := 9600 }

/-- The options object passed to `new SerialPort`. -/
structure SerialPortOptions where
  path : JsString
  baudRate : Nat
  autoOpen : Bool
  deriving DecidableEq, Repr

/-- The two Socket.IO message names used by the server. -/
inductive EventName where
  | serial
  | captcha
  deriving DecidableEq, Repr

/-- Who an emitted message goes to: every connected client (`io.emit`) or one
socket (`socket.emit`). -/
inductive Target where
  | all
  | only (id : JsString)
  deriving DecidableEq, Repr

/-- One `emit` call. -/
structure Emission where
  target : Target
  event : EventName
  payload : JsString
  deriving DecidableEq, Repr

/-- The closures handed to `setTimeout`; the program has one, `() => startSerial()`. -/
inductive Callback where
  | startSerial
  deriving DecidableEq, Repr

/-- A pending `setTimeout(callback, delay)`. -/
structure Timer where
  callback : Callback
  delay : Nat
  deriving DecidableEq, Repr

/-- Lines written to the console, one constructor per `console.*` call site. -/
inductive LogEntry where
  | serialLine (text : JsString)
  | failedOpen (err : JsString)
  | serialOpen (path : JsString) (baud : Nat)
  | serialError (err : JsString)
  | portClosed
  | startError (err : JsString)
  | clientConnected (id : JsString)
  | clientDisconnected (id : JsString)
  deriving DecidableEq, Repr

/-- The mutable state of the process together with the record of its effects. -/
structure State where
  lastCaptcha : Option JsString
  emitted : List Emission
  timers : List Timer
  ports : List SerialPortOptions
  console : List LogEntry
  deriving DecidableEq, Repr

/-- The call `io.emit(event, payload)`. -/
def ioEmit (st : State) (event : EventName) (payload : JsString) : State :=
  { st with emitted := st.emitted ++ [⟨Target.all, event, payload⟩] }

/-- The call `socket.emit(event, payload)` on the socket `id`. -/
def socketEmit (st : State) (id : JsString) (event : EventName) (payload : JsString) : State :=
  { st with emitted := st.emitted ++ [⟨Target.only id, event, payload⟩] }

/-- A `console.log` / `console.warn` / `console.error` call. -/
def consoleLog (st : State) (e : LogEntry) : State :=
  { st with console := st.console ++ [e] }

/-- The call `setTimeout(callback, delay)`. -/
def setTimeout (st : State) (callback : Callback) (delay : Nat) : State :=
  { st with timers := st.timers ++ [⟨callback, delay⟩] }

/-! ## Handlers -/

/-- The callback of `sp.open`: logs the failure and returns, or logs the success. -/
def openCallback (cfg : Config) (st : State) (err : Option JsString) : State :=
  match err with
  | some e => consoleLog st (LogEntry.failedOpen e)
  | none => consoleLog st (LogEntry.serialOpen cfg.SERIAL_PATH cfg.BAUD_RATE)

/-- The handler `parser.on('data', line => ...)`. -/
def onData (st : State) (line : JsString) : State :=
  let text := trim (orEmpty line)
  let st1 := consoleLog st (LogEntry.serialLine text)
  let st2 := ioEmit st1 EventName.serial text
  if startsWith text captchaTag then
    let captcha := extractCaptcha text
    let st3 := { st2 with lastCaptcha := some captcha }
    ioEmit st3 EventName.captcha captcha
  else
    st2

/-- The handler `sp.on('error', err => ...)`. -/
def onError (st : State) (err : JsString) : State :=
  consoleLog st (LogEntry.serialError err)

/-- The handler `sp.on('close', () => ...)`. -/
def onClose (st : State) : State :=
  let st1 := consoleLog st LogEntry.portClosed
  setTimeout st1 Callback.startSerial 3000

/-- The function `startSerial`.  `thrown` is the exception raised inside the `try`
block, if any (the constructors are the only calls there that can throw, so
nothing has been opened or registered when it is caught). -/
def startSerial (cfg : Config) (thrown : Option JsString) (st : State) : State :=
  match thrown with
  | some e => consoleLog st (LogEntry.startError e)
  | none =>
    { st with ports := st.ports ++
        [{ path := cfg.SERIAL_PATH, baudRate := cfg.BAUD_RATE, autoOpen := false }] }

/-- The truthiness of `lastCaptcha` in `if (lastCaptcha)`: `null` and `''` are falsy. -/
def truthy (v : Option JsString) : Bool :=
  match v with
  | none => false
  | some s => !s.isEmpty

/-- The handler `io.on('connection', socket => ...)`. -/
def onConnection (st : State) (id : JsString) : State :=
  let st1 := consoleLog st (LogEntry.clientConnected id)
  if truthy st1.lastCaptcha then
    socketEmit st1 id EventName.captcha (st1.lastCaptcha.getD [])
  else
    st1

/-- The handler `socket.on('disconnect', () => ...)`. -/
def onDisconnect (st : State) (id : JsString) : State :=
  consoleLog st (LogEntry.clientDisconnected id)

/-- The oldest pending timer fires.  All timers of the program have the same
delay, so the oldest is the first one due. -/
def onTimeout (cfg : Config) (thrown : Option JsString) (st : State) : State :=
  match st.timers with
  | [] => st
  | t :: rest =>
    match t.callback with
    | Callback.startSerial => startSerial cfg thrown { st with timers := rest }

/-- The body `{ captcha: lastCaptcha }` answered by `GET /api/captcha`. -/
def apiCaptcha (st : State) : Option JsString :=
  st.lastCaptcha

/-- The state after the module has been loaded: `lastCaptcha = null` and the
top-level call `startSerial()` has run (`thrown` as in `startSerial`). -/
def initial (cfg : Config) (thrown : Option JsString) : State :=
  startSerial cfg thrown
    { lastCaptcha := none, emitted := [], timers := [], ports := [], console := [] }

/-- What the environment can make the process do next. -/
inductive Ev where
  | data (line : JsString)
  | opened (err : Option JsString)
  | error (err : JsString)
  | close
  | connection (id : JsString)
  | disconnect (id : JsString)
  | timeout (thrown : Option JsString)
  | getCaptcha
  deriving DecidableEq, Repr

/-- One handler invocation. -/
def step (cfg : Config) (st : State) : Ev → State
  | Ev.data line => onData st line
  | Ev.opened err => openCallback cfg st err
  | Ev.error err => onError st err
  | Ev.close => onClose st
  | Ev.connection id => onConnection st id
  | Ev.disconnect id => onDisconnect st id
  | Ev.timeout thrown => onTimeout cfg thrown st
  | Ev.getCaptcha => st

/-- A run: the handlers are invoked one after the other (single-threaded event loop). -/
def run (cfg : Config) (st : State) (evs : List Ev) : State :=
  evs.foldl (step cfg) st

/-! ## The specification's reading of the line protocol -/

/-- Prefix match of the specification: the trimmed line starts with `CAPTCHA:`. -/
def isCaptchaLine (line : JsString) : Bool :=
  startsWith (trim line) captchaTag

/-- The trimmed remainder after `CAPTCHA:` of a line. -/
def remainderOf (line : JsString) : JsString :=
  trim ((trim line).drop captchaTag.length)

/-- The serial lines of a run, in the order they were delivered. -/
def linesOf : List Ev → List JsString
  | [] => []
  | Ev.data line :: evs => line :: linesOf evs
  | _ :: evs => linesOf evs

/-- The cached value the specification prescribes after a run: absent when no
captcha line was received, else the trimmed remainder of the most recent one. -/
def expectedCaptcha (evs : List Ev) : Option JsString :=
  match ((linesOf evs).filter isCaptchaLine).getLast? with
  | none => none
  | some line => some (remainderOf line)

/-- The messages the specification prescribes for one line: the raw-line message,
then the captcha message when the line is a captcha line. -/
def lineEvents (line : JsString) : List Emission :=
  ⟨Target.all, EventName.serial, trim line⟩ ::
    (if isCaptchaLine line then [⟨Target.all, EventName.captcha, remainderOf line⟩] else [])

/-- The payloads of the `serial` messages of a trace, in order. -/
def serialPayloads (tr : List Emission) : List JsString :=
  tr.filterMap (fun e => if e.event = EventName.serial then some e.payload else none)

/-- A port closes and the timer it scheduled fires (the reopened port is constructed). -/
def closeAndReopen (cfg : Config) (st : State) : State :=
  onTimeout cfg none (onClose st)

/-! ## String lemmas -/

theorem trimEnd_cons (a : Char) (t : JsString) :
    trimEnd (a :: t) =
      if isWhiteSpace a = true ∧ trimEnd t = [] then [] else a :: trimEnd t := by
  unfold trimEnd
  rw [List.reverse_cons, List.dropWhile_append]
  by_cases h : List.dropWhile isWhiteSpace t.reverse = []
  · by_cases ha : isWhiteSpace a = true <;> simp [h, ha]
  · have h2 : (List.dropWhile isWhiteSpace t.reverse).isEmpty = false := by
      cases hd : List.dropWhile isWhiteSpace t.reverse with
      | nil => exact absurd hd h
      | cons x xs => rfl
    simp [h, h2]

theorem trimEnd_append (l₁ l₂ : JsString) :
    trimEnd (l₁ ++ l₂) = if trimEnd l₂ = [] then trimEnd l₁ else l₁ ++ trimEnd l₂ := by
  induction l₁ with
  | nil =>
    have h0 : trimEnd [] = [] := rfl
    by_cases h : trimEnd l₂ = []
    · rw [List.nil_append, if_pos h, h, h0]
    · rw [List.nil_append, if_neg h, List.nil_append]
  | cons a t ih =>
    rw [List.cons_append, trimEnd_cons, ih, trimEnd_cons]
    by_cases h : trimEnd l₂ = []
    · simp [h]
    · simp [h]

theorem trimEnd_idem (l : JsString) : trimEnd (trimEnd l) = trimEnd l := by
  induction l with
  | nil => rfl
  | cons a t ih =>
    rw [trimEnd_cons]
    by_cases h : isWhiteSpace a = true ∧ trimEnd t = []
    · rw [if_pos h]
      rfl
    · rw [if_neg h, trimEnd_cons, ih, if_neg h]

theorem trimStart_trimEnd (l : JsString) : trimStart (trimEnd l) = trimEnd (trimStart l) := by
  induction l with
  | nil => rfl
  | cons a t ih =>
    unfold trimStart at ih ⊢
    rw [trimEnd_cons]
    by_cases ha : isWhiteSpace a = true
    · rw [List.dropWhile_cons_of_pos ha, ← ih]
      by_cases ht : trimEnd t = []
      · simp [ha, ht]
      · simp [ha, ht]
    · rw [List.dropWhile_cons_of_neg ha, trimEnd_cons]
      simp [ha]

theorem trim_trimEnd (l : JsString) : trim (trimEnd l) = trim l := by
  unfold trim
  rw [trimStart_trimEnd, trimEnd_idem]

theorem trim_idem (l : JsString) : trim (trim l) = trim l := by
  show trim (trimEnd (trimStart l)) = trimEnd (trimStart l)
  rw [trim_trimEnd]
  unfold trim
  have : trimStart (trimStart l) = trimStart l := by
    unfold trimStart
    exact List.dropWhile_idempotent _ _
  rw [this]

theorem orEmpty_eq (line : JsString) : orEmpty line = line := by
  unfold orEmpty
  cases line <;> simp

theorem split_ne_nil (sep : Char) (s : JsString) : split sep s ≠ [] := by
  induction s with
  | nil => simp [split]
  | cons c cs ih =>
    unfold split
    by_cases h : c = sep
    · simp [h]
    · rw [if_neg h]
      cases hs : split sep cs with
      | nil => simp
      | cons p ps => simp

theorem join_cons_cons (sep c : Char) (p : JsString) (ps : List JsString) :
    join sep ((c :: p) :: ps) = c :: join sep (p :: ps) := by
  cases ps <;> simp [join]

theorem join_split (sep : Char) (s : JsString) : join sep (split sep s) = s := by
  induction s with
  | nil => simp [split, join]
  | cons c cs ih =>
    unfold split
    by_cases h : c = sep
    · rw [if_pos h]
      cases hs : split sep cs with
      | nil => exact absurd hs (split_ne_nil sep cs)
      | cons p ps =>
        rw [hs] at ih
        simp [join, ih, h]
    · rw [if_neg h]
      cases hs : split sep cs with
      | nil => exact absurd hs (split_ne_nil sep cs)
      | cons p ps =>
        rw [hs] at ih
        simp only [join_cons_cons, ih]

theorem split_append_sep (sep : Char) (pre rest : JsString) (h : sep ∉ pre) :
    split sep (pre ++ sep :: rest) = pre :: split sep rest := by
  induction pre with
  | nil => simp [split]
  | cons c cs ih =>
    have hc : c ≠ sep := fun e => h (by simp [e])
    have hcs : sep ∉ cs := fun e => h (by simp [e])
    rw [List.cons_append, split, if_neg hc, ih hcs]

theorem extractCaptcha_tag (rest : JsString) :
    extractCaptcha (captchaTag ++ rest) = trim rest := by
  have h : captchaTag ++ rest = "CAPTCHA".toList ++ ':' :: rest := rfl
  unfold extractCaptcha
  rw [h, split_append_sep ':' _ rest (by decide)]
  simp [join_split]

theorem startsWith_tag (rest : JsString) : startsWith (captchaTag ++ rest) captchaTag = true := by
  unfold startsWith
  simp

theorem eq_tag_append_of_startsWith (text : JsString) (h : startsWith text captchaTag = true) :
    text = captchaTag ++ text.drop captchaTag.length := by
  unfold startsWith at h
  rw [List.isPrefixOf_iff_prefix] at h
  exact (List.prefix_iff_eq_append.mp h).symm

theorem trim_tag_append (rest : JsString) :
    trim (captchaTag ++ rest) = captchaTag ++ trimEnd rest := by
  have h1 : trimStart (captchaTag ++ rest) = captchaTag ++ rest := rfl
  have h2 : trimEnd captchaTag = captchaTag := by decide
  unfold trim
  rw [h1, trimEnd_append]
  by_cases h : trimEnd rest = []
  · simp [h, h2]
  · simp [h]


/-! ## Handler lemmas -/

theorem extractCaptcha_of_startsWith (text : JsString) (h : startsWith text captchaTag = true) :
    extractCaptcha text = trim (text.drop captchaTag.length) := by
  conv_lhs => rw [eq_tag_append_of_startsWith text h]
  exact extractCaptcha_tag _

theorem onData_emitted (st : State) (line : JsString) :
    (onData st line).emitted = st.emitted ++ lineEvents line := by
  unfold onData lineEvents isCaptchaLine remainderOf
  rw [orEmpty_eq]
  by_cases h : startsWith (trim line) captchaTag = true
  · simp [h, ioEmit, consoleLog, extractCaptcha_of_startsWith]
  · simp [h, ioEmit, consoleLog]

theorem onData_lastCaptcha (st : State) (line : JsString) :
    (onData st line).lastCaptcha =
      if isCaptchaLine line then some (remainderOf line) else st.lastCaptcha := by
  unfold onData isCaptchaLine remainderOf
  rw [orEmpty_eq]
  by_cases h : startsWith (trim line) captchaTag = true
  · simp [h, ioEmit, consoleLog, extractCaptcha_of_startsWith]
  · simp [h, ioEmit, consoleLog]

theorem isCaptchaLine_tag (rest : JsString) : isCaptchaLine (captchaTag ++ rest) = true := by
  unfold isCaptchaLine
  rw [trim_tag_append]
  exact startsWith_tag _

theorem remainderOf_tag (rest : JsString) : remainderOf (captchaTag ++ rest) = trim rest := by
  unfold remainderOf
  rw [trim_tag_append, List.drop_left, trim_trimEnd]

theorem onConnection_emitted (st : State) (id : JsString) :
    (onConnection st id).emitted =
      st.emitted ++ (match st.lastCaptcha with
        | none => []
        | some s => if s = [] then [] else [⟨Target.only id, EventName.captcha, s⟩]) := by
  unfold onConnection
  cases hc : st.lastCaptcha with
  | none => simp [consoleLog, truthy, hc]
  | some s =>
    cases s with
    | nil => simp [consoleLog, truthy, hc]
    | cons a t => simp [consoleLog, truthy, hc, socketEmit]

theorem onConnection_lastCaptcha (st : State) (id : JsString) :
    (onConnection st id).lastCaptcha = st.lastCaptcha := by
  unfold onConnection
  dsimp only
  split <;> rfl

theorem foldl_onData_lastCaptcha_none (lines : List JsString) (st : State)
    (hl : ∀ l ∈ lines, isCaptchaLine l = false) (hst : st.lastCaptcha = none) :
    (lines.foldl onData st).lastCaptcha = none := by
  induction lines generalizing st with
  | nil => exact hst
  | cons l ls ih =>
    rw [List.foldl_cons]
    apply ih
    · intro x hx
      exact hl x (List.mem_cons_of_mem _ hx)
    · rw [onData_lastCaptcha, hl l (List.mem_cons_self _ _)]
      simpa using hst

/-! ## Claims about the line protocol and replay-on-join -/

/-- C1: on the line `"CAPTCHA:" ++ rest` the `'data'` handler broadcasts exactly
`serial` with the trimmed line and then `captcha` with `trim rest`, and
`lastCaptcha` becomes `trim rest`, whatever was cached before; `CAPTCHA:ab:cd`
gives the payload `ab:cd`, and `CAPTCHA:` gives the empty payload and cached value. -/
theorem onData_captcha_line (st : State) (rest : JsString) :
    (onData st (captchaTag ++ rest)).emitted = st.emitted ++
        [⟨Target.all, EventName.serial, trim (captchaTag ++ rest)⟩,
         ⟨Target.all, EventName.captcha, trim rest⟩] ∧
    (onData st (captchaTag ++ rest)).lastCaptcha = some (trim rest) ∧
    (onData st "CAPTCHA:ab:cd".toList).emitted = st.emitted ++
        [⟨Target.all, EventName.serial, "CAPTCHA:ab:cd".toList⟩,
         ⟨Target.all, EventName.captcha, "ab:cd".toList⟩] ∧
    (onData st "CAPTCHA:".toList).emitted = st.emitted ++
        [⟨Target.all, EventName.serial, "CAPTCHA:".toList⟩,
         ⟨Target.all, EventName.captcha, []⟩] ∧
    (onData st "CAPTCHA:".toList).lastCaptcha = some [] := by
  have hgen : ∀ r : JsString,
      (onData st (captchaTag ++ r)).emitted = st.emitted ++
        [⟨Target.all, EventName.serial, trim (captchaTag ++ r)⟩,
         ⟨Target.all, EventName.captcha, trim r⟩] ∧
      (onData st (captchaTag ++ r)).lastCaptcha = some (trim r) := by
    intro r
    rw [onData_emitted, onData_lastCaptcha, lineEvents, isCaptchaLine_tag, remainderOf_tag]
    simp
  refine ⟨(hgen rest).1, (hgen rest).2, ?_, ?_, ?_⟩
  · exact (hgen "ab:cd".toList).1
  · exact (hgen []).1
  · exact (hgen []).2

/-- C2 (as stated, refuted): the line `" CAPTCHA:x"` does not start with `CAPTCHA:`,
yet the handler, which tests the trimmed text, broadcasts a `captcha` message and
overwrites `lastCaptcha`. -/
theorem onData_untrimmed_tag_counterexample :
    startsWith " CAPTCHA:x".toList captchaTag = false ∧
    (onData (initial defaultConfig none) " CAPTCHA:x".toList).emitted =
      [⟨Target.all, EventName.serial, "CAPTCHA:x".toList⟩,
       ⟨Target.all, EventName.captcha, "x".toList⟩] ∧
    (initial defaultConfig none).lastCaptcha = none ∧
    (onData (initial defaultConfig none) " CAPTCHA:x".toList).lastCaptcha = some "x".toList := by
  decide

/-- C2 (amended): for every line whose trimmed text does not start with `CAPTCHA:`
the `'data'` handler broadcasts exactly one message, `serial` with the trimmed line,
and leaves `lastCaptcha` unchanged. -/
theorem onData_other_line (st : State) (L : JsString)
    (h : startsWith (trim L) captchaTag = false) :
    (onData st L).emitted = st.emitted ++ [⟨Target.all, EventName.serial, trim L⟩] ∧
    (onData st L).lastCaptcha = st.lastCaptcha := by
  have hc : isCaptchaLine L = false := h
  rw [onData_emitted, onData_lastCaptcha, lineEvents, hc]
  simp

/-- Witness of `onData_other_line` at the line `"TEMP:21 "`. -/
theorem onData_other_line_witness :
    startsWith (trim "TEMP:21 ".toList) captchaTag = false ∧
    (onData (initial defaultConfig none) "TEMP:21 ".toList).emitted =
      (initial defaultConfig none).emitted ++ [⟨Target.all, EventName.serial, trim "TEMP:21 ".toList⟩] ∧
    (onData (initial defaultConfig none) "TEMP:21 ".toList).lastCaptcha =
      (initial defaultConfig none).lastCaptcha :=
  ⟨by decide, onData_other_line (initial defaultConfig none) "TEMP:21 ".toList (by decide)⟩

/-- C3 (as stated, refuted): after the line `CAPTCHA:` the cached value is the empty
string, and a connecting client receives nothing. -/
theorem onConnection_empty_captcha_counterexample :
    (onData (initial defaultConfig none) "CAPTCHA:".toList).lastCaptcha = some [] ∧
    (onConnection (onData (initial defaultConfig none) "CAPTCHA:".toList) "s1".toList).emitted =
      (onData (initial defaultConfig none) "CAPTCHA:".toList).emitted := by
  decide

/-- C3 (amended): when `lastCaptcha` is a non-empty string, a connecting client is
sent exactly one `captcha` message, addressed to it alone, carrying `lastCaptcha`;
when `lastCaptcha` is the empty string nothing is sent.  The cached value is not
changed. -/
theorem onConnection_replay (st : State) (id s : JsString) (h : st.lastCaptcha = some s) :
    (onConnection st id).emitted =
      st.emitted ++ (if s = [] then [] else [⟨Target.only id, EventName.captcha, s⟩]) ∧
    (onConnection st id).lastCaptcha = some s := by
  constructor
  · rw [onConnection_emitted, h]
  · rw [onConnection_lastCaptcha, h]

/-- Witness of `onConnection_replay` after the line `CAPTCHA:7Q4Z`. -/
theorem onConnection_replay_witness :
    (onData (initial defaultConfig none) "CAPTCHA:7Q4Z".toList).lastCaptcha = some "7Q4Z".toList ∧
    (onConnection (onData (initial defaultConfig none) "CAPTCHA:7Q4Z".toList) "s1".toList).emitted =
      (onData (initial defaultConfig none) "CAPTCHA:7Q4Z".toList).emitted ++
        (if "7Q4Z".toList = [] then []
          else [⟨Target.only "s1".toList, EventName.captcha, "7Q4Z".toList⟩]) ∧
    (onConnection (onData (initial defaultConfig none) "CAPTCHA:7Q4Z".toList) "s1".toList).lastCaptcha =
      some "7Q4Z".toList :=
  ⟨by decide, onConnection_replay _ "s1".toList "7Q4Z".toList (by decide)⟩

/-- C5: in the initial state `lastCaptcha` is `null`; it stays `null` through any
sequence of lines none of which is a captcha line; and in such a state a connecting
client is sent nothing. -/
theorem onConnection_no_captcha (cfg : Config) (thrown : Option JsString) (st : State) (lines : List JsString)
    (id : JsString) (hl : ∀ l ∈ lines, isCaptchaLine l = false)
    (hst : st.lastCaptcha = none) :
    (initial cfg thrown).lastCaptcha = none ∧
    (lines.foldl onData st).lastCaptcha = none ∧
    (onConnection (lines.foldl onData st) id).emitted = (lines.foldl onData st).emitted := by
  have h2 := foldl_onData_lastCaptcha_none lines st hl hst
  refine ⟨by cases thrown <;> rfl, h2, ?_⟩
  rw [onConnection_emitted, h2]
  simp

/-- Witness of `onConnection_no_captcha` after the lines `hello` and `TEMP:21`. -/
theorem onConnection_no_captcha_witness :
    (∀ l ∈ ["hello".toList, "TEMP:21".toList], isCaptchaLine l = false) ∧
    (initial defaultConfig none).lastCaptcha = none ∧
    (initial defaultConfig none).lastCaptcha = none ∧
    (["hello".toList, "TEMP:21".toList].foldl onData (initial defaultConfig none)).lastCaptcha = none ∧
    (onConnection (["hello".toList, "TEMP:21".toList].foldl onData (initial defaultConfig none))
        "s1".toList).emitted =
      (["hello".toList, "TEMP:21".toList].foldl onData (initial defaultConfig none)).emitted :=
  ⟨by decide, rfl,
    onConnection_no_captcha defaultConfig none (initial defaultConfig none)
      ["hello".toList, "TEMP:21".toList] "s1".toList (by decide) rfl⟩


/-! ## Runs -/

theorem step_lastCaptcha (cfg : Config) (st : State) (e : Ev) :
    (step cfg st e).lastCaptcha =
      match expectedCaptcha [e] with
      | some v => some v
      | none => st.lastCaptcha := by
  cases e with
  | data line =>
    show (onData st line).lastCaptcha = _
    rw [onData_lastCaptcha]
    by_cases h : isCaptchaLine line = true
    · simp [expectedCaptcha, linesOf, h]
    · simp [expectedCaptcha, linesOf, h]
  | opened err => cases err <;> rfl
  | error err => rfl
  | close => rfl
  | connection id => exact onConnection_lastCaptcha st id
  | disconnect id => rfl
  | timeout thrown =>
    show (onTimeout cfg thrown st).lastCaptcha = st.lastCaptcha
    unfold onTimeout
    cases st.timers with
    | nil => rfl
    | cons t rest =>
      cases t with
      | mk cb d => cases cb; cases thrown <;> rfl
  | getCaptcha => rfl

theorem linesOf_append (a b : List Ev) : linesOf (a ++ b) = linesOf a ++ linesOf b := by
  induction a with
  | nil => rfl
  | cons e es ih => cases e <;> simp [linesOf, ih]

theorem expectedCaptcha_append (evs more : List Ev) :
    expectedCaptcha (evs ++ more) =
      match expectedCaptcha more with
      | some v => some v
      | none => expectedCaptcha evs := by
  unfold expectedCaptcha
  rw [linesOf_append, List.filter_append, List.getLast?_append]
  cases ((linesOf more).filter isCaptchaLine).getLast? <;> simp

theorem run_lastCaptcha (cfg : Config) (st : State) (evs : List Ev) :
    (run cfg st evs).lastCaptcha =
      match expectedCaptcha evs with
      | some v => some v
      | none => st.lastCaptcha := by
  induction evs generalizing st with
  | nil => rfl
  | cons e es ih =>
    have hrun : run cfg st (e :: es) = run cfg (step cfg st e) es := rfl
    rw [hrun, ih, step_lastCaptcha]
    have happ := expectedCaptcha_append [e] es
    rw [List.singleton_append] at happ
    rw [happ]
    cases expectedCaptcha es <;> rfl

theorem run_append (cfg : Config) (st : State) (evs more : List Ev) :
    run cfg st (evs ++ more) = run cfg (run cfg st evs) more := by
  unfold run
  exact List.foldl_append _ _ _ _

/-- C4: after any run from the initial state the value answered by
`GET /api/captcha` is `null` when no captcha line was received and otherwise the
trimmed remainder of the most recent captcha line; further events either replace it
by the remainder of a later captcha line or leave it as it is, so a value once set
never becomes `null` again. -/
theorem apiCaptcha_last_write_wins (cfg : Config) (thrown : Option JsString) (evs more : List Ev) :
    apiCaptcha (run cfg (initial cfg thrown) evs) = expectedCaptcha evs ∧
    apiCaptcha (run cfg (initial cfg thrown) (evs ++ more)) =
      (match expectedCaptcha more with
       | some v => some v
       | none => apiCaptcha (run cfg (initial cfg thrown) evs)) ∧
    (apiCaptcha (run cfg (initial cfg thrown) evs) ≠ none →
      apiCaptcha (run cfg (initial cfg thrown) (evs ++ more)) ≠ none) := by
  have h1 : apiCaptcha (run cfg (initial cfg thrown) evs) = expectedCaptcha evs := by
    have h0 : (initial cfg thrown).lastCaptcha = none := by cases thrown <;> rfl
    unfold apiCaptcha
    rw [run_lastCaptcha, h0]
    cases expectedCaptcha evs <;> rfl
  have h2 : apiCaptcha (run cfg (initial cfg thrown) (evs ++ more)) =
      (match expectedCaptcha more with
       | some v => some v
       | none => apiCaptcha (run cfg (initial cfg thrown) evs)) := by
    unfold apiCaptcha
    rw [run_append, run_lastCaptcha]
  refine ⟨h1, h2, ?_⟩
  intro hne
  rw [h2]
  cases expectedCaptcha more with
  | none => exact hne
  | some v => simp

/-- Witness of `apiCaptcha_last_write_wins`: two captcha lines followed by a close,
a failed open and a plain line. -/
theorem apiCaptcha_last_write_wins_witness :
    apiCaptcha (run defaultConfig (initial defaultConfig none)
        [Ev.data "CAPTCHA:A1".toList, Ev.connection "s1".toList,
         Ev.data " CAPTCHA: B2 ".toList]) ≠ none ∧
    apiCaptcha (run defaultConfig (initial defaultConfig none)
        ([Ev.data "CAPTCHA:A1".toList, Ev.connection "s1".toList,
          Ev.data " CAPTCHA: B2 ".toList] ++
         [Ev.close, Ev.timeout none, Ev.opened (some "busy".toList),
          Ev.data "hello".toList])) ≠ none :=
  ⟨by decide,
    (apiCaptcha_last_write_wins defaultConfig none
      [Ev.data "CAPTCHA:A1".toList, Ev.connection "s1".toList,
       Ev.data " CAPTCHA: B2 ".toList]
      [Ev.close, Ev.timeout none, Ev.opened (some "busy".toList),
       Ev.data "hello".toList]).2.2 (by decide)⟩

/-- C9: the broadcast trace of a sequence of lines is the concatenation, in delivery
order, of one block per line, each block being the `serial` message of that line
followed by its `captcha` message if it has one; the `serial` payloads of the trace
are exactly the trimmed lines, in order. -/
theorem foldl_onData_trace (st : State) (lines : List JsString) :
    (lines.foldl onData st).emitted = st.emitted ++ lines.flatMap lineEvents ∧
    serialPayloads (lines.flatMap lineEvents) = lines.map trim ∧
    (∀ line : JsString,
      lineEvents line = [⟨Target.all, EventName.serial, trim line⟩] ∨
      lineEvents line = [⟨Target.all, EventName.serial, trim line⟩,
                         ⟨Target.all, EventName.captcha, remainderOf line⟩]) := by
  refine ⟨?_, ?_, ?_⟩
  · induction lines generalizing st with
    | nil => simp
    | cons l ls ih =>
      rw [List.foldl_cons, ih, onData_emitted]
      simp [List.flatMap, List.append_assoc]
  · induction lines with
    | nil => rfl
    | cons l ls ih =>
      have hl : serialPayloads (lineEvents l) = [trim l] := by
        unfold serialPayloads lineEvents
        by_cases h : isCaptchaLine l = true <;> simp [h]
      have hcons : (l :: ls).flatMap lineEvents = lineEvents l ++ ls.flatMap lineEvents := by
        simp [List.flatMap]
      rw [hcons]
      unfold serialPayloads at hl ih ⊢
      rw [List.filterMap_append, hl, ih]
      rfl
  · intro line
    unfold lineEvents
    by_cases h : isCaptchaLine line = true <;> simp [h]

/-- Witness of `foldl_onData_trace` on three lines, the second a captcha line. -/
theorem foldl_onData_trace_witness :
    (["a".toList, "CAPTCHA:x:y".toList, " b ".toList].foldl onData
        (initial defaultConfig none)).emitted =
      [⟨Target.all, EventName.serial, "a".toList⟩,
       ⟨Target.all, EventName.serial, "CAPTCHA:x:y".toList⟩,
       ⟨Target.all, EventName.captcha, "x:y".toList⟩,
       ⟨Target.all, EventName.serial, "b".toList⟩] :=
  ((foldl_onData_trace (initial defaultConfig none)
      ["a".toList, "CAPTCHA:x:y".toList, " b ".toList]).1).trans (by decide)


/-! ## Reconnection -/

theorem closeAndReopen_of_idle (cfg : Config) (st : State) (h : st.timers = []) :
    (closeAndReopen cfg st).timers = [] ∧
    (closeAndReopen cfg st).ports = st.ports ++
      [{ path := cfg.SERIAL_PATH, baudRate := cfg.BAUD_RATE, autoOpen := false }] := by
  unfold closeAndReopen onTimeout onClose setTimeout consoleLog startSerial
  simp [h]

theorem iterate_closeAndReopen (cfg : Config) (n : Nat) :
    ((closeAndReopen cfg)^[n] (initial cfg none)).timers = [] ∧
    ((closeAndReopen cfg)^[n] (initial cfg none)).ports =
      List.replicate (n + 1)
        { path := cfg.SERIAL_PATH, baudRate := cfg.BAUD_RATE, autoOpen := false } := by
  induction n with
  | zero => exact ⟨rfl, rfl⟩
  | succ k ih =>
    rw [Function.iterate_succ_apply']
    have h := closeAndReopen_of_idle cfg _ ih.1
    refine ⟨h.1, ?_⟩
    rw [h.2, ih.2, ← List.replicate_succ']

theorem step_timers_of_ne_close (cfg : Config) (st : State) (e : Ev) (h : e ≠ Ev.close) :
    (step cfg st e).timers.length ≤ st.timers.length := by
  cases e with
  | data line =>
    show (onData st line).timers.length ≤ _
    unfold onData
    dsimp only
    split <;> exact Nat.le_refl _
  | opened err => cases err <;> exact Nat.le_refl _
  | error err => exact Nat.le_refl _
  | close => exact absurd rfl h
  | connection id =>
    show (onConnection st id).timers.length ≤ _
    unfold onConnection
    dsimp only
    split <;> exact Nat.le_refl _
  | disconnect id => exact Nat.le_refl _
  | timeout thrown =>
    show (onTimeout cfg thrown st).timers.length ≤ _
    unfold onTimeout
    cases hst : st.timers with
    | nil => simp [hst]
    | cons t rest =>
      cases t with
      | mk cb d =>
        cases cb
        cases thrown <;> simp [startSerial, consoleLog]
  | getCaptcha => exact Nat.le_refl _

/-- C6: a `'close'` event registers exactly one timer, with delay 3000 and callback
`startSerial`, and opens nothing itself; when that timer fires `startSerial` runs once
and constructs one port with `SERIAL_PATH` and `BAUD_RATE`; after any number `n` of
close-and-reopen rounds there have been `n + 1` attempts, all with the same path and
baud rate, nothing else is pending, and the next close again uses the delay 3000. -/
theorem onClose_schedules_reopen (cfg : Config) (st : State) (n : Nat) :
    (onClose st).timers = st.timers ++ [⟨Callback.startSerial, 3000⟩] ∧
    (onClose st).ports = st.ports ∧
    onTimeout cfg none { onClose st with timers := [⟨Callback.startSerial, 3000⟩] } =
      startSerial cfg none { onClose st with timers := [] } ∧
    (startSerial cfg none { onClose st with timers := [] }).ports = st.ports ++
      [{ path := cfg.SERIAL_PATH, baudRate := cfg.BAUD_RATE, autoOpen := false }] ∧
    ((closeAndReopen cfg)^[n] (initial cfg none)).ports =
      List.replicate (n + 1)
        { path := cfg.SERIAL_PATH, baudRate := cfg.BAUD_RATE, autoOpen := false } ∧
    ((closeAndReopen cfg)^[n] (initial cfg none)).timers = [] ∧
    (onClose ((closeAndReopen cfg)^[n] (initial cfg none))).timers =
      [⟨Callback.startSerial, 3000⟩] := by
  have hit := iterate_closeAndReopen cfg n
  refine ⟨rfl, rfl, rfl, rfl, hit.2, hit.1, ?_⟩
  show ((closeAndReopen cfg)^[n] (initial cfg none)).timers ++ _ = _
  rw [hit.1]
  rfl

/-- C7 (as stated, refuted): after a failed open from the initial state no timer is
pending, a timer tick does nothing, and the number of ports ever constructed stays
at one: no retry is scheduled. -/
theorem openCallback_failure_counterexample :
    (openCallback defaultConfig (initial defaultConfig none) (some "busy".toList)).timers = [] ∧
    onTimeout defaultConfig none
        (openCallback defaultConfig (initial defaultConfig none) (some "busy".toList)) =
      openCallback defaultConfig (initial defaultConfig none) (some "busy".toList) ∧
    (openCallback defaultConfig (initial defaultConfig none) (some "busy".toList)).ports.length = 1 := by
  decide

/-- C7 (amended): when opening fails the `open` callback only logs the failure and
returns; it schedules no reopen attempt (the pending timers are unchanged) and
constructs no port, and the same holds when open failures repeat. -/
theorem openCallback_failure_logs_only (cfg : Config) (st : State) (e : JsString)
    (errs : List JsString) :
    openCallback cfg st (some e) = consoleLog st (LogEntry.failedOpen e) ∧
    (openCallback cfg st (some e)).timers = st.timers ∧
    (openCallback cfg st (some e)).ports = st.ports ∧
    (errs.foldl (fun s x => openCallback cfg s (some x)) st).timers = st.timers ∧
    (errs.foldl (fun s x => openCallback cfg s (some x)) st).ports = st.ports := by
  refine ⟨rfl, rfl, rfl, ?_, ?_⟩
  · induction errs generalizing st with
    | nil => rfl
    | cons x xs ih => rw [List.foldl_cons, ih]; rfl
  · induction errs generalizing st with
    | nil => rfl
    | cons x xs ih => rw [List.foldl_cons, ih]; rfl

/-- C8 (as stated, refuted): on a connection that has been opened successfully, an
`'error'` event leaves no timer pending and a timer tick then does nothing, whereas
a `'close'` event in the same state leaves one timer with delay 3000 pending. -/
theorem onError_counterexample :
    (onError (openCallback defaultConfig (initial defaultConfig none) none)
        "EIO".toList).timers = [] ∧
    onTimeout defaultConfig none
        (onError (openCallback defaultConfig (initial defaultConfig none) none)
          "EIO".toList) =
      onError (openCallback defaultConfig (initial defaultConfig none) none) "EIO".toList ∧
    (onError (openCallback defaultConfig (initial defaultConfig none) none)
        "EIO".toList).ports.length = 1 ∧
    (onClose (openCallback defaultConfig (initial defaultConfig none) none)).timers =
      [⟨Callback.startSerial, 3000⟩] := by
  decide

/-- C8 (amended): an `'error'` event is only logged; handling it schedules no reopen
attempt (the pending timers are unchanged) and constructs no port. -/
theorem onError_logs_only (st : State) (err : JsString) :
    onError st err = consoleLog st (LogEntry.serialError err) ∧
    (onError st err).timers = st.timers ∧
    (onError st err).ports = st.ports :=
  ⟨rfl, rfl, rfl⟩

/-- C10: the failed-open callback, the `'error'` handler and the `'close'` handler
emit nothing and leave `lastCaptcha` unchanged. -/
theorem failure_handlers_frame (cfg : Config) (st : State) (err : JsString) :
    (openCallback cfg st (some err)).emitted = st.emitted ∧
    (openCallback cfg st (some err)).lastCaptcha = st.lastCaptcha ∧
    (onError st err).emitted = st.emitted ∧
    (onError st err).lastCaptcha = st.lastCaptcha ∧
    (onClose st).emitted = st.emitted ∧
    (onClose st).lastCaptcha = st.lastCaptcha :=
  ⟨rfl, rfl, rfl, rfl, rfl, rfl⟩


end SerialBridge
